import Mathlib

/-!
Verification of the task-management engine of the to-do repository
(`src/todo.py`): the `Task` entity, the `TodoList` store with its
add/view/complete/delete operations, and the JSON persistence round trip.

The embedding is shallow and faithful to the Python source:

* `Task.__init__` becomes `mkTask`, taking the ambient clock value `now`
  explicitly; the priority normalization (`if priority not in [1, 2, 3]`)
  is kept as written.
* Python list indexing `tasks[i]` / `tasks.pop(i)` supports negative
  indices that wrap around from the end; `pyIndex` models exactly that
  rule, returning `none` when Python would raise `IndexError`.
* The JSON file is modelled by `Storage`: the file may be absent, reading
  it may fail (`IOError`), its text may fail to parse
  (`json.JSONDecodeError`), or it parses into a list of records whose
  keys may individually be missing (a missing key makes `data[k]` raise
  `KeyError`, which `load_tasks` does NOT catch).
* Printing is irrelevant to the claims and is dropped; an operation that
  only prints an error message and returns is modelled by an error flag.
-/

namespace Todo

/-- One task, as built by `Task.__init__` in `src/todo.py`:
description, optional due date, integer priority, completion flag and
creation timestamp. -/
structure Task where
  description : String
  due_date : Option String
  priority : Int
  completed : Bool
  created_at : String
deriving DecidableEq

/-- `Task.__init__`: stores the fields, stamps `created_at` with the
ambient clock (`now`), and coerces any priority outside `[1, 2, 3]`
to `2` (medium). -/
def mkTask (description : String) (due_date : Option String) (priority : Int)
    (completed : Bool) (now : String) : Task :=
  { description := description
    due_date := due_date
    priority := if priority = 1 ∨ priority = 2 ∨ priority = 3 then priority else 2
    completed := completed
    created_at := now }

/-- The dict lookup `priority_map[self.priority]` in `Task.__str__`:
defined on `{1, 2, 3}`, a miss raises `KeyError` (modelled by `none`). -/
def priorityMap (p : Int) : Option String :=
  if p = 1 then some "High"
  else if p = 2 then some "Medium"
  else if p = 3 then some "Low"
  else none

/-- `Task.__str__`: `[mark] description (Priority: label[, Due: date])`.
The due-date part is shown only when `self.due_date` is truthy, so both
`None` and the empty string suppress it. `none` models the `KeyError`
raised when the priority label lookup misses. -/
def renderTask (t : Task) : Option String :=
  match priorityMap t.priority with
  | none => none
  | some lab =>
      some ("[" ++ (if t.completed then "✓" else " ") ++ "] " ++ t.description ++
        " (Priority: " ++ lab ++
        (match t.due_date with
         | some s => if s = "" then "" else ", Due: " ++ s
         | none => "") ++ ")")

/-- One JSON record of the persisted file. Each field is `Option`-wrapped
because the corresponding key may be absent from the dict, in which case
`data[k]` raises `KeyError` (and `data.get` returns the default).
The inner `Option String` of `due_date` is JSON `null`. -/
structure Record where
  description : Option String
  due_date : Option (Option String)
  priority : Option Int
  completed : Option Bool
  created_at : Option String
deriving DecidableEq

/-- The dict built for one task inside `TodoList.save_tasks`: every key
is present. -/
def recordOfTask (t : Task) : Record :=
  { description := some t.description
    due_date := some t.due_date
    priority := some t.priority
    completed := some t.completed
    created_at := some t.created_at }

/-- `TodoList.save_tasks`: serialize the whole sequence, in order. -/
def save_tasks (ts : List Task) : List Record := ts.map recordOfTask

/-- What `load_tasks` finds at `self.filename`. -/
inductive Storage
  | absent
  | ioError
  | malformedJson
  | content (records : List Record)
deriving DecidableEq

/-- How one call to `load_tasks` terminates: normally, via the
`except (IOError, json.JSONDecodeError)` handler, or by an uncaught
`KeyError` escaping from `data[...]` on a record missing a key. -/
inductive LoadOutcome
  | ok
  | caughtStorage
  | uncaughtKey
deriving DecidableEq

/-- The in-memory sequence after `load_tasks` returns or raises,
together with how it terminated. -/
structure LoadResult where
  tasks : List Task
  outcome : LoadOutcome
deriving DecidableEq

/-- The body of the `for data in task_data` loop in `load_tasks`:
`Task(description=data['description'], due_date=data['due_date'],
priority=data['priority'], completed=data['completed'])` followed by
`task.created_at = data.get('created_at', 'Unknown')`. A record missing
one of the four indexed keys raises `KeyError` (`none`). -/
def loadRecord (r : Record) (now : String) : Option Task :=
  match r.description, r.due_date, r.priority, r.completed with
  | some d, some dd, some p, some c =>
      some { mkTask d dd p c now with created_at := r.created_at.getD "Unknown" }
  | _, _, _, _ => none

/-- The record loop of `load_tasks`, accumulating `self.tasks` by
`append`; it stops with `uncaughtKey` at the first record whose required
key is missing, keeping the tasks appended so far. -/
def processRecords (now : String) : List Record → List Task → LoadResult
  | [], acc => ⟨acc, LoadOutcome.ok⟩
  | r :: rs, acc =>
      match loadRecord r now with
      | some t => processRecords now rs (acc ++ [t])
      | none => ⟨acc, LoadOutcome.uncaughtKey⟩

/-- `TodoList.load_tasks`. An absent file returns early. `IOError` and
`json.JSONDecodeError` are caught (only a message is printed), and since
`self.tasks = []` runs only after a successful `json.load`, the prior
in-memory sequence survives those failures. Parsed content resets
`self.tasks` to `[]` and runs the record loop. -/
def load_tasks (st : Storage) (prior : List Task) (now : String) : LoadResult :=
  match st with
  | Storage.absent => ⟨prior, LoadOutcome.ok⟩
  | Storage.ioError => ⟨prior, LoadOutcome.caughtStorage⟩
  | Storage.malformedJson => ⟨prior, LoadOutcome.caughtStorage⟩
  | Storage.content rs => processRecords now rs []

/-- The store: the in-memory sequence plus the last successfully
persisted file content. -/
structure TodoList where
  tasks : List Task
  file : List Record
deriving DecidableEq

/-- Python list indexing: `xs[i]` is `xs[i]` for `0 ≤ i < len`, wraps to
`xs[len + i]` for negative `i` with `-len ≤ i`, and raises `IndexError`
(modelled by `none`) otherwise. -/
def pyIndex (len : Nat) (i : Int) : Option Nat :=
  if 0 ≤ i then
    if i < (len : Int) then some i.toNat else none
  else
    if 0 ≤ i + (len : Int) then some (i + (len : Int)).toNat else none

/-- `TodoList.add_task`: build the task, append it, save. No validation
of the description happens here. -/
def add_task (st : TodoList) (description : String) (due_date : Option String)
    (priority : Int) (now : String) : TodoList :=
  let ts := st.tasks ++ [mkTask description due_date priority false now]
  { tasks := ts, file := save_tasks ts }

/-- The two `continue` filters of `TodoList.view_tasks`. Note the Python
truthiness test `if priority_filter`: both `None` and `0` disable the
priority filter. -/
def taskSkipped (show_completed : Bool) (priority_filter : Option Int) (t : Task) : Bool :=
  (t.completed && !show_completed) ||
    (match priority_filter with
     | none => false
     | some n => if n = 0 then false else decide (t.priority ≠ n))

/-- `enumerate(self.tasks, 1)`: pair each task with its 1-based position
in the unfiltered sequence. -/
def enumerateFrom : Nat → List Task → List (Nat × Task)
  | _, [] => []
  | i, t :: ts => (i, t) :: enumerateFrom (i + 1) ts

/-- `TodoList.view_tasks`: the (position, task) pairs actually printed,
in sequence order. Pure; touches neither the sequence nor the file. -/
def view_tasks (ts : List Task) (show_completed : Bool)
    (priority_filter : Option Int) : List (Nat × Task) :=
  (enumerateFrom 1 ts).filter
    (fun pr => !taskSkipped show_completed priority_filter pr.2)

/-- In-place update `self.tasks[i].completed = True` at Python index `i`. -/
def setCompleted : List Task → Nat → List Task
  | [], _ => []
  | t :: ts, 0 => { t with completed := true } :: ts
  | t :: ts, i + 1 => t :: setCompleted ts i

/-- `TodoList.mark_completed`: `self.tasks[task_index - 1]` under Python
indexing; on `IndexError` only a message is printed (error flag `true`),
otherwise the task is completed and the list saved. -/
def mark_completed (st : TodoList) (task_index : Int) : TodoList × Bool :=
  match pyIndex st.tasks.length (task_index - 1) with
  | none => (st, true)
  | some i =>
      let ts := setCompleted st.tasks i
      ({ tasks := ts, file := save_tasks ts }, false)

/-- `TodoList.delete_task`: `self.tasks.pop(task_index - 1)` under Python
indexing; on `IndexError` only a message is printed (error flag `true`),
otherwise the element is removed and the list saved. -/
def delete_task (st : TodoList) (task_index : Int) : TodoList × Bool :=
  match pyIndex st.tasks.length (task_index - 1) with
  | none => (st, true)
  | some i =>
      let ts := st.tasks.eraseIdx i
      ({ tasks := ts, file := save_tasks ts }, false)

/-- A concrete task used by the concrete-input theorems below. -/
def demoTask : Task := mkTask "write report" none 1 false "2024-01-01 09:00"

/-- A store holding exactly `demoTask`, with the file in sync. -/
def demoStore : TodoList := { tasks := [demoTask], file := save_tasks [demoTask] }

/-- An empty store with an empty file. -/
def emptyStore : TodoList := { tasks := [], file := [] }

/-- A second concrete task (low priority, with a due date, completed). -/
def demoTask2 : Task := mkTask "buy milk" (some "2024-01-10") 3 true "2024-01-02 10:00"

/-- A two-task sequence with valid priorities, used as a round-trip input. -/
def demoTasks : List Task := [demoTask, demoTask2]

/-- A record missing its `description` key: valid JSON, but
`data['description']` raises `KeyError` on it. -/
def badRecord : Record :=
  { description := none
    due_date := some none
    priority := some 2
    completed := some false
    created_at := none }

/-- A completed high-priority task. -/
def highDone : Task := mkTask "ship build" none 1 true "2024-01-01 09:00"

/-- An uncompleted high-priority task. -/
def highOpen : Task := mkTask "fix bug" none 1 false "2024-01-01 09:05"

/-- A sequence with two high-priority tasks, one completed. -/
def highStore : List Task := [highDone, highOpen]

/-- Three tasks with distinct descriptions and priorities. -/
def threeTasks : List Task :=
  [mkTask "alpha" none 1 false "2024-01-01 09:00",
   mkTask "beta" none 2 false "2024-01-01 09:01",
   mkTask "gamma" none 3 false "2024-01-01 09:02"]

/-- A store holding `threeTasks`, with the file in sync. -/
def threeStore : TodoList := { tasks := threeTasks, file := save_tasks threeTasks }

/-- C3: constructing a `Task` never fails (`mkTask` is total); the
stored priority equals the supplied value when it lies in `{1, 2, 3}`
and is `2` otherwise, and the Python default value `2` also yields
priority `2`. -/
theorem mkTask_priority_normalization (d : String) (dd : Option String) (p : Int)
    (c : Bool) (now : String) :
    ((p = 1 ∨ p = 2 ∨ p = 3) → (mkTask d dd p c now).priority = p)
    ∧ (¬(p = 1 ∨ p = 2 ∨ p = 3) → (mkTask d dd p c now).priority = 2)
    ∧ (mkTask d dd 2 c now).priority = 2 := by
  refine ⟨fun h => ?_, fun h => ?_, ?_⟩ <;> simp [mkTask, *]

/-- Witness for C3 at priorities `1` (kept) and `7` (coerced to `2`). -/
theorem mkTask_priority_normalization_witness :
    ((1 : Int) = 1 ∨ (1 : Int) = 2 ∨ (1 : Int) = 3)
    ∧ ¬((7 : Int) = 1 ∨ (7 : Int) = 2 ∨ (7 : Int) = 3)
    ∧ (mkTask "a" none 1 false "t").priority = 1
    ∧ (mkTask "a" none 7 false "t").priority = 2 :=
  ⟨by decide, by decide,
    (mkTask_priority_normalization "a" none 1 false "t").1 (by decide),
    (mkTask_priority_normalization "a" none 7 false "t").2.1 (by decide)⟩

/-- C5 counterexample: `add_task` with an empty description raises no
`ValidationError` at the store layer; it appends a blank task and
persists it. -/
theorem add_empty_description_appends :
    (add_task emptyStore "" none 2 "2024-01-01 09:00").tasks =
      [mkTask "" none 2 false "2024-01-01 09:00"]
    ∧ (add_task emptyStore "" none 2 "2024-01-01 09:00").file =
        save_tasks [mkTask "" none 2 false "2024-01-01 09:00"] :=
  ⟨rfl, rfl⟩

/-- C5 amended: for every description (empty included), `add_task`
appends exactly one new task with `completed = false` to the end of the
sequence and persists the extended sequence before returning; the
empty-description check lives only in the interactive caller. -/
theorem add_task_appends_and_persists (st : TodoList) (d : String)
    (dd : Option String) (p : Int) (now : String) :
    (add_task st d dd p now).tasks = st.tasks ++ [mkTask d dd p false now]
    ∧ (mkTask d dd p false now).completed = false
    ∧ (add_task st d dd p now).file = save_tasks (st.tasks ++ [mkTask d dd p false now]) :=
  ⟨rfl, rfl, rfl⟩

/-- C1 (code bug, evaluated at the failing input): on a one-task store,
`Complete(0)` and `Delete(0)` do not raise `IndexError`; Python's
negative indexing makes `tasks[-1]` hit the last task, so `Complete(0)`
marks it completed and persists, and `Delete(0)` removes it and
persists. -/
theorem complete_delete_zero_hit_last :
    (mark_completed demoStore 0).2 = false
    ∧ (mark_completed demoStore 0).1.tasks.map Task.completed = [true]
    ∧ (mark_completed demoStore 0).1.file =
        save_tasks (mark_completed demoStore 0).1.tasks
    ∧ (delete_task demoStore 0).2 = false
    ∧ (delete_task demoStore 0).1.tasks = []
    ∧ (delete_task demoStore 0).1.file = [] :=
  ⟨rfl, rfl, rfl, rfl, rfl, rfl⟩

/-- C9: rendering a constructed task never fails — construction
normalizes the priority into `{1, 2, 3}`, so the label lookup always
hits — and the rendered line shows the completion mark, the
description, the priority label and the due date when present. -/
theorem render_constructed_total (d : String) (dd : Option String) (p : Int)
    (c : Bool) (now : String) :
    ∃ lab, priorityMap (mkTask d dd p c now).priority = some lab ∧
      renderTask (mkTask d dd p c now) =
        some ("[" ++ (if c then "✓" else " ") ++ "] " ++ d ++ " (Priority: " ++ lab ++
          (match dd with
           | some s => if s = "" then "" else ", Due: " ++ s
           | none => "") ++ ")") := by
  by_cases h1 : p = 1
  · exact ⟨"High", by simp [mkTask, priorityMap, renderTask, h1]⟩
  · by_cases h2 : p = 2
    · exact ⟨"Medium", by simp [mkTask, priorityMap, renderTask, h2]⟩
    · by_cases h3 : p = 3
      · exact ⟨"Low", by simp [mkTask, priorityMap, renderTask, h1, h2, h3]⟩
      · exact ⟨"Medium", by simp [mkTask, priorityMap, renderTask, h1, h2, h3]⟩

/-- A valid 1-based position maps to the plain index `p - 1`, in range. -/
theorem pyIndex_of_valid (len : Nat) (p : Int) (h1 : 1 ≤ p) (h2 : p ≤ (len : Int)) :
    pyIndex len (p - 1) = some (p - 1).toNat ∧ (p - 1).toNat < len := by
  have h0 : (0 : Int) ≤ p - 1 := by omega
  have hl : p - 1 < (len : Int) := by omega
  refine ⟨?_, by omega⟩
  unfold pyIndex
  rw [if_pos h0, if_pos hl]

/-- `setCompleted` keeps the length of the sequence. -/
theorem setCompleted_length (ts : List Task) (i : Nat) :
    (setCompleted ts i).length = ts.length := by
  induction ts generalizing i with
  | nil => simp [setCompleted]
  | cons t ts ih => cases i <;> simp [setCompleted, ih]

/-- `setCompleted` at `i` sets the completion flag of the element at `i`. -/
theorem setCompleted_get_self (ts : List Task) (i : Nat) :
    (setCompleted ts i)[i]? = (ts[i]?).map (fun t => { t with completed := true }) := by
  induction ts generalizing i with
  | nil => simp [setCompleted]
  | cons t ts ih => cases i <;> simp [setCompleted, ih]

/-- Setting the completion flag twice at the same index is the same as
setting it once. -/
theorem setCompleted_twice (ts : List Task) (i : Nat) :
    setCompleted (setCompleted ts i) i = setCompleted ts i := by
  induction ts generalizing i with
  | nil => simp [setCompleted]
  | cons t ts ih => cases i <;> simp [setCompleted, ih]

/-- Elements strictly before the erased index keep their positions. -/
theorem eraseIdx_get_lt (ts : List Task) (i j : Nat) (h : j < i) :
    (ts.eraseIdx i)[j]? = ts[j]? := by
  induction ts generalizing i j with
  | nil => simp [List.eraseIdx]
  | cons t ts ih =>
      cases i with
      | zero => omega
      | succ i =>
          cases j with
          | zero => simp [List.eraseIdx]
          | succ j => simpa [List.eraseIdx] using ih i j (by omega)

/-- Elements at or after the erased index shift down by one. -/
theorem eraseIdx_get_ge (ts : List Task) (i j : Nat) (h : i ≤ j) :
    (ts.eraseIdx i)[j]? = ts[j + 1]? := by
  induction ts generalizing i j with
  | nil => simp [List.eraseIdx]
  | cons t ts ih =>
      cases i with
      | zero => simp [List.eraseIdx]
      | succ i =>
          cases j with
          | zero => omega
          | succ j => simpa [List.eraseIdx] using ih i j (by omega)

/-- Erasing an in-range index shortens the sequence by one. -/
theorem eraseIdx_length (ts : List Task) (i : Nat) (h : i < ts.length) :
    (ts.eraseIdx i).length = ts.length - 1 := by
  induction ts generalizing i with
  | nil => simp at h
  | cons t ts ih =>
      cases i with
      | zero => simp [List.eraseIdx]
      | succ i =>
          have h' : i < ts.length := by simpa using h
          simp [List.eraseIdx, ih i h']
          omega

/-- Loading the record saved for a task with a valid priority recovers
the task exactly, `created_at` included. -/
theorem loadRecord_recordOfTask (t : Task) (now : String)
    (h : t.priority = 1 ∨ t.priority = 2 ∨ t.priority = 3) :
    loadRecord (recordOfTask t) now = some t := by
  cases t with
  | mk d dd p c ca =>
      have hp : p = 1 ∨ p = 2 ∨ p = 3 := h
      rcases hp with h' | h' | h' <;> subst h' <;>
        simp [loadRecord, recordOfTask, mkTask]

/-- The record loop of `load_tasks`, run on the output of `save_tasks`
for tasks with valid priorities, appends exactly those tasks. -/
theorem processRecords_save (now : String) :
    ∀ ts : List Task, (∀ t ∈ ts, t.priority = 1 ∨ t.priority = 2 ∨ t.priority = 3) →
      ∀ acc, processRecords now (save_tasks ts) acc = ⟨acc ++ ts, LoadOutcome.ok⟩ := by
  intro ts
  induction ts with
  | nil => intro _ acc; simp [save_tasks, processRecords]
  | cons t ts ih =>
      intro h acc
      have ht : t.priority = 1 ∨ t.priority = 2 ∨ t.priority = 3 := h t (by simp)
      have h' : ∀ u ∈ ts, u.priority = 1 ∨ u.priority = 2 ∨ u.priority = 3 :=
        fun u hu => h u (by simp [hu])
      have hrec := ih h' (acc ++ [t])
      simp only [save_tasks, List.map_cons, processRecords,
        loadRecord_recordOfTask t now ht]
      simp only [save_tasks] at hrec
      rw [hrec]
      simp

/-- C2: for a non-empty sequence of tasks in the valid state (priority
in `{1, 2, 3}`; every field is always present on a `Task`), saving and
loading into a fresh store reproduces the sequence field-for-field and
in order, with `created_at` taken from the stored value. -/
theorem save_load_roundtrip (ts : List Task) (now : String) (_hne : ts ≠ [])
    (h : ∀ t ∈ ts, t.priority = 1 ∨ t.priority = 2 ∨ t.priority = 3) :
    load_tasks (Storage.content (save_tasks ts)) [] now = ⟨ts, LoadOutcome.ok⟩ := by
  have := processRecords_save now ts h []
  simpa [load_tasks] using this

/-- Witness for C2 on a concrete two-task store; the reload happens at a
later clock value, which does not leak into the result. -/
theorem save_load_roundtrip_witness :
    demoTasks ≠ []
    ∧ (∀ t ∈ demoTasks, t.priority = 1 ∨ t.priority = 2 ∨ t.priority = 3)
    ∧ load_tasks (Storage.content (save_tasks demoTasks)) [] "2024-02-02 10:00" =
        ⟨demoTasks, LoadOutcome.ok⟩ :=
  ⟨by decide, by decide,
    save_load_roundtrip demoTasks "2024-02-02 10:00" (by decide) (by decide)⟩

/-- C4 counterexample: content that is valid JSON but whose second
record lacks the `description` key makes `load_tasks` fail by an
uncaught `KeyError` (not the caught storage errors), and the store is
left with one task loaded — not with an empty sequence. -/
theorem load_malformed_not_left_empty :
    (load_tasks (Storage.content [recordOfTask demoTask, badRecord]) []
        "2024-03-03 08:00").outcome = LoadOutcome.uncaughtKey
    ∧ (load_tasks (Storage.content [recordOfTask demoTask, badRecord]) []
        "2024-03-03 08:00").tasks ≠ [] :=
  ⟨rfl, by decide⟩

/-- C4 amended: read failures and JSON-syntax failures are caught and
leave the in-memory sequence exactly as it was before the call (empty
at the construction call site, the only caller); but content whose
record misses a required key raises an uncaught `KeyError` and leaves
the store holding the records loaded before the bad one. -/
theorem load_failure_behavior (prior : List Task) (now : String) :
    load_tasks Storage.ioError prior now = ⟨prior, LoadOutcome.caughtStorage⟩
    ∧ load_tasks Storage.malformedJson prior now = ⟨prior, LoadOutcome.caughtStorage⟩
    ∧ (load_tasks (Storage.content [recordOfTask demoTask, badRecord]) prior now).outcome
        = LoadOutcome.uncaughtKey
    ∧ (load_tasks (Storage.content [recordOfTask demoTask, badRecord]) prior now).tasks.length
        = 1 :=
  ⟨rfl, rfl, rfl, rfl⟩

/-- C6: over the argument domain declared by the interface (no filter,
or a filter in `{1, 2, 3}`), `view_tasks` yields exactly the
position-task pairs of the enumerated sequence that pass the
completion and priority filters, and is a sublist of the enumeration:
order and 1-based positions come from the unfiltered sequence. The
embedding is a pure function: nothing is mutated or persisted. -/
theorem view_tasks_filter_spec (ts : List Task) (sc : Bool) (pf : Option Int)
    (hpf : pf = none ∨ pf = some 1 ∨ pf = some 2 ∨ pf = some 3) :
    view_tasks ts sc pf =
      (enumerateFrom 1 ts).filter
        (fun pr => (!(pr.2.completed && !sc)) &&
          (match pf with
           | none => true
           | some n => decide (pr.2.priority = n)))
    ∧ List.Sublist (view_tasks ts sc pf) (enumerateFrom 1 ts) := by
  constructor
  · unfold view_tasks
    apply List.filter_congr
    intro x _
    rcases hpf with h | h | h | h <;> subst h <;>
      simp [taskSkipped, Bool.not_or, Bool.not_not, decide_not]
  · exact List.filter_sublist _

/-- Witness for C6 on the spec's own example: two high-priority tasks,
one completed, viewed without completed tasks and filtered to high. -/
theorem view_tasks_filter_spec_witness :
    ((some 1 : Option Int) = none ∨ (some 1 : Option Int) = some 1 ∨
        (some 1 : Option Int) = some 2 ∨ (some 1 : Option Int) = some 3)
    ∧ (view_tasks highStore false (some 1) =
        (enumerateFrom 1 highStore).filter
          (fun pr => (!(pr.2.completed && !false)) &&
            (match (some 1 : Option Int) with
             | none => true
             | some n => decide (pr.2.priority = n)))
      ∧ List.Sublist (view_tasks highStore false (some 1)) (enumerateFrom 1 highStore)) :=
  ⟨by decide, view_tasks_filter_spec highStore false (some 1) (by decide)⟩

/-- C7: deleting a valid 1-based position `p` succeeds, shortens the
sequence by one, keeps every task before `p` at its position, shifts
every task after `p` down by one (unchanged otherwise, order kept),
and persists the new sequence. -/
theorem delete_valid_position_spec (st : TodoList) (p : Int)
    (h1 : 1 ≤ p) (h2 : p ≤ (st.tasks.length : Int)) :
    (delete_task st p).2 = false
    ∧ ((delete_task st p).1.tasks.length : Int) = (st.tasks.length : Int) - 1
    ∧ (∀ j : Nat, (j : Int) < p - 1 → (delete_task st p).1.tasks[j]? = st.tasks[j]?)
    ∧ (∀ j : Nat, p - 1 ≤ (j : Int) → (delete_task st p).1.tasks[j]? = st.tasks[j + 1]?)
    ∧ (delete_task st p).1.file = save_tasks ((delete_task st p).1.tasks) := by
  obtain ⟨hidx, hlt⟩ := pyIndex_of_valid st.tasks.length p h1 h2
  simp only [delete_task, hidx]
  refine ⟨trivial, ?_, ?_, ?_, trivial⟩
  · have hlen := eraseIdx_length st.tasks (p - 1).toNat hlt
    omega
  · intro j hj
    exact eraseIdx_get_lt st.tasks _ j (by omega)
  · intro j hj
    exact eraseIdx_get_ge st.tasks _ j (by omega)

/-- Witness for C7: deleting position 2 of a three-task store; the
first task keeps its position and the third moves to position 2. -/
theorem delete_valid_position_spec_witness :
    ((1 : Int) ≤ 2 ∧ (2 : Int) ≤ (threeStore.tasks.length : Int))
    ∧ (delete_task threeStore 2).2 = false
    ∧ (delete_task threeStore 2).1.tasks[0]? = threeStore.tasks[0]?
    ∧ (delete_task threeStore 2).1.tasks[1]? = threeStore.tasks[2]? :=
  ⟨⟨by decide, by decide⟩,
    (delete_valid_position_spec threeStore 2 (by decide) (by decide)).1,
    (delete_valid_position_spec threeStore 2 (by decide) (by decide)).2.2.1 0 (by decide),
    (delete_valid_position_spec threeStore 2 (by decide) (by decide)).2.2.2.1 1 (by decide)⟩

/-- C8: completing a valid position succeeds, leaves the task's flag
true, and a second call on the same position also succeeds without
error and changes nothing: the operation is idempotent. -/
theorem mark_completed_idempotent (st : TodoList) (p : Int)
    (h1 : 1 ≤ p) (h2 : p ≤ (st.tasks.length : Int)) :
    (mark_completed st p).2 = false
    ∧ ((mark_completed st p).1.tasks[(p - 1).toNat]?).map Task.completed = some true
    ∧ mark_completed (mark_completed st p).1 p = ((mark_completed st p).1, false) := by
  obtain ⟨hidx, hlt⟩ := pyIndex_of_valid st.tasks.length p h1 h2
  have hidx2 : pyIndex (setCompleted st.tasks (p - 1).toNat).length (p - 1) =
      some (p - 1).toNat := by
    rw [setCompleted_length]
    exact hidx
  refine ⟨?_, ?_, ?_⟩
  · simp [mark_completed, hidx]
  · simp only [mark_completed, hidx]
    rw [setCompleted_get_self, List.getElem?_eq_getElem hlt]
    rfl
  · simp only [mark_completed, hidx, hidx2, setCompleted_twice]

/-- Witness for C8 on the one-task store at position 1. -/
theorem mark_completed_idempotent_witness :
    ((1 : Int) ≤ 1 ∧ (1 : Int) ≤ (demoStore.tasks.length : Int))
    ∧ (mark_completed demoStore 1).2 = false
    ∧ ((mark_completed demoStore 1).1.tasks[((1 : Int) - 1).toNat]?).map Task.completed
        = some true
    ∧ mark_completed (mark_completed demoStore 1).1 1 = ((mark_completed demoStore 1).1, false) :=
  ⟨⟨by decide, by decide⟩,
    (mark_completed_idempotent demoStore 1 (by decide) (by decide)).1,
    (mark_completed_idempotent demoStore 1 (by decide) (by decide)).2.1,
    (mark_completed_idempotent demoStore 1 (by decide) (by decide)).2.2⟩

/-- C10: a record carrying the four required keys (with a priority in
the storage format's range) but no `created_at` key loads without
failing: the other fields come from the record and `created_at` becomes
the literal `"Unknown"`. -/
theorem load_record_missing_created_at (d : String) (dd : Option String) (p : Int)
    (c : Bool) (now : String) (hp : p = 1 ∨ p = 2 ∨ p = 3) :
    loadRecord
        { description := some d, due_date := some dd, priority := some p,
          completed := some c, created_at := none } now =
      some { description := d, due_date := dd, priority := p, completed := c,
             created_at := "Unknown" } := by
  rcases hp with h | h | h <;> subst h <;> simp [loadRecord, mkTask]

/-- Witness for C10 on a concrete record without `created_at`. -/
theorem load_record_missing_created_at_witness :
    ((3 : Int) = 1 ∨ (3 : Int) = 2 ∨ (3 : Int) = 3)
    ∧ loadRecord
        { description := some "water plants", due_date := some none, priority := some 3,
          completed := some false, created_at := none } "2024-05-05 08:00" =
      some { description := "water plants", due_date := none, priority := 3,
             completed := false, created_at := "Unknown" } :=
  ⟨by decide,
    load_record_missing_created_at "water plants" none 3 false "2024-05-05 08:00" (by decide)⟩

end Todo
